import Mathlib

/-!
Verification of the solar-system renderer core. This file is a shallow
embedding of the camera controller, the orbital motion model for the
planets and the sun, the GPU instance records, the resize and per-frame
error handling, and the ordered render pass sequence, together with
theorems checking the documented properties of each part. The f32
arithmetic of the source is idealized as real arithmetic; the aspect
ratio, which only needs exact division, is idealized as a rational.
-/

namespace SolarSystem

noncomputable section

/-- A 3-component vector, mirroring glam Vec3 with f32 idealized as real. -/
@[ext]
structure Vec3 where
  x : ℝ
  y : ℝ
  z : ℝ

instance : Add Vec3 := ⟨fun a b => ⟨a.x + b.x, a.y + b.y, a.z + b.z⟩⟩

instance : Sub Vec3 := ⟨fun a b => ⟨a.x - b.x, a.y - b.y, a.z - b.z⟩⟩

instance : SMul ℝ Vec3 := ⟨fun k v => ⟨k * v.x, k * v.y, k * v.z⟩⟩

/-- glam Vec3 ZERO constant. -/
def Vec3.ZERO : Vec3 := ⟨0, 0, 0⟩

/-- glam Vec3 Y constant, the world up axis. -/
def Vec3.Y : Vec3 := ⟨0, 1, 0⟩

/-- glam Vec3 dot product. -/
def Vec3.dot (a b : Vec3) : ℝ := a.x * b.x + a.y * b.y + a.z * b.z

/-- glam Vec3 length, the square root of the self dot product. -/
def Vec3.length (v : Vec3) : ℝ := Real.sqrt (v.dot v)

/-- glam Vec3 normalize: the vector divided by its length. -/
def Vec3.normalize (v : Vec3) : Vec3 := (1 / v.length) • v

/-- glam Vec3 cross product. -/
def Vec3.cross (a b : Vec3) : Vec3 :=
  ⟨a.y * b.z - a.z * b.y, a.z * b.x - a.x * b.z, a.x * b.y - a.y * b.x⟩

/-- A quaternion in glam component order x, y, z, w. -/
@[ext]
structure Quat where
  x : ℝ
  y : ℝ
  z : ℝ
  w : ℝ

/-- glam Quat from_axis_angle: half-angle sine scales the axis, cosine is w. -/
def Quat.fromAxisAngle (axis : Vec3) (angle : ℝ) : Quat :=
  ⟨axis.x * Real.sin (angle * 0.5), axis.y * Real.sin (angle * 0.5),
   axis.z * Real.sin (angle * 0.5), Real.cos (angle * 0.5)⟩

/-- glam Quat from_rotation_y: rotation about the world Y axis. -/
def Quat.fromRotationY (angle : ℝ) : Quat :=
  ⟨0, Real.sin (angle * 0.5), 0, Real.cos (angle * 0.5)⟩

/-- Rust f32 to_radians. -/
def toRadians (x : ℝ) : ℝ := x * Real.pi / 180

/-- Rust f32 clamp: raise to the lower bound, then cap at the upper bound. -/
def clamp (x lo hi : ℝ) : ℝ := min (max x lo) hi

/-- A 3 by 3 matrix with entries named by row then column. -/
structure Mat3 where
  m00 : ℝ
  m01 : ℝ
  m02 : ℝ
  m10 : ℝ
  m11 : ℝ
  m12 : ℝ
  m20 : ℝ
  m21 : ℝ
  m22 : ℝ

/-- A 4 by 4 matrix with entries named by row then column. -/
structure Mat4 where
  m00 : ℝ
  m01 : ℝ
  m02 : ℝ
  m03 : ℝ
  m10 : ℝ
  m11 : ℝ
  m12 : ℝ
  m13 : ℝ
  m20 : ℝ
  m21 : ℝ
  m22 : ℝ
  m23 : ℝ
  m30 : ℝ
  m31 : ℝ
  m32 : ℝ
  m33 : ℝ

/-- glam Mat3 from_quat: the rotation matrix of a unit quaternion. Entry
m-r-c is row r column c of the mathematical matrix; the columns are the
glam x, y and z axes. -/
def Mat3.fromQuat (q : Quat) : Mat3 where
  m00 := 1 - 2 * (q.y ^ 2 + q.z ^ 2)
  m01 := 2 * (q.x * q.y - q.w * q.z)
  m02 := 2 * (q.x * q.z + q.w * q.y)
  m10 := 2 * (q.x * q.y + q.w * q.z)
  m11 := 1 - 2 * (q.x ^ 2 + q.z ^ 2)
  m12 := 2 * (q.y * q.z - q.w * q.x)
  m20 := 2 * (q.x * q.z - q.w * q.y)
  m21 := 2 * (q.y * q.z + q.w * q.x)
  m22 := 1 - 2 * (q.x ^ 2 + q.y ^ 2)

/-- glam Mat4 from_quat: the rotation in the upper-left 3 by 3 block and
an identity last row and column. -/
def Mat4.fromQuat (q : Quat) : Mat4 where
  m00 := 1 - 2 * (q.y ^ 2 + q.z ^ 2)
  m01 := 2 * (q.x * q.y - q.w * q.z)
  m02 := 2 * (q.x * q.z + q.w * q.y)
  m03 := 0
  m10 := 2 * (q.x * q.y + q.w * q.z)
  m11 := 1 - 2 * (q.x ^ 2 + q.z ^ 2)
  m12 := 2 * (q.y * q.z - q.w * q.x)
  m13 := 0
  m20 := 2 * (q.x * q.z - q.w * q.y)
  m21 := 2 * (q.y * q.z + q.w * q.x)
  m22 := 1 - 2 * (q.x ^ 2 + q.y ^ 2)
  m23 := 0
  m30 := 0
  m31 := 0
  m32 := 0
  m33 := 1

/-- glam Mat4 from_translation: identity with the translation in the last
column. -/
def Mat4.fromTranslation (t : Vec3) : Mat4 where
  m00 := 1
  m01 := 0
  m02 := 0
  m03 := t.x
  m10 := 0
  m11 := 1
  m12 := 0
  m13 := t.y
  m20 := 0
  m21 := 0
  m22 := 1
  m23 := t.z
  m30 := 0
  m31 := 0
  m32 := 0
  m33 := 1

/-- Matrix product of two 4 by 4 matrices, row times column. -/
def mat4Mul (a b : Mat4) : Mat4 where
  m00 := a.m00 * b.m00 + a.m01 * b.m10 + a.m02 * b.m20 + a.m03 * b.m30
  m01 := a.m00 * b.m01 + a.m01 * b.m11 + a.m02 * b.m21 + a.m03 * b.m31
  m02 := a.m00 * b.m02 + a.m01 * b.m12 + a.m02 * b.m22 + a.m03 * b.m32
  m03 := a.m00 * b.m03 + a.m01 * b.m13 + a.m02 * b.m23 + a.m03 * b.m33
  m10 := a.m10 * b.m00 + a.m11 * b.m10 + a.m12 * b.m20 + a.m13 * b.m30
  m11 := a.m10 * b.m01 + a.m11 * b.m11 + a.m12 * b.m21 + a.m13 * b.m31
  m12 := a.m10 * b.m02 + a.m11 * b.m12 + a.m12 * b.m22 + a.m13 * b.m32
  m13 := a.m10 * b.m03 + a.m11 * b.m13 + a.m12 * b.m23 + a.m13 * b.m33
  m20 := a.m20 * b.m00 + a.m21 * b.m10 + a.m22 * b.m20 + a.m23 * b.m30
  m21 := a.m20 * b.m01 + a.m21 * b.m11 + a.m22 * b.m21 + a.m23 * b.m31
  m22 := a.m20 * b.m02 + a.m21 * b.m12 + a.m22 * b.m22 + a.m23 * b.m32
  m23 := a.m20 * b.m03 + a.m21 * b.m13 + a.m22 * b.m23 + a.m23 * b.m33
  m30 := a.m30 * b.m00 + a.m31 * b.m10 + a.m32 * b.m20 + a.m33 * b.m30
  m31 := a.m30 * b.m01 + a.m31 * b.m11 + a.m32 * b.m21 + a.m33 * b.m31
  m32 := a.m30 * b.m02 + a.m31 * b.m12 + a.m32 * b.m22 + a.m33 * b.m32
  m33 := a.m30 * b.m03 + a.m31 * b.m13 + a.m32 * b.m23 + a.m33 * b.m33

/-- glam Mat4 look_to_rh: right-handed look-to view matrix. The direction
is normalized to the forward vector f, the side vector s and the true up
vector u complete the frame, and the rows carry s, u and minus f. -/
def lookToRh (eye dir up : Vec3) : Mat4 :=
  let f := dir.normalize
  let s := (f.cross up).normalize
  let u := s.cross f
  { m00 := s.x, m01 := s.y, m02 := s.z, m03 := -(eye.dot s)
    m10 := u.x, m11 := u.y, m12 := u.z, m13 := -(eye.dot u)
    m20 := -f.x, m21 := -f.y, m22 := -f.z, m23 := eye.dot f
    m30 := 0, m31 := 0, m32 := 0, m33 := 1 }

/-- Camera state from src camera.rs: position, yaw and pitch in radians. -/
@[ext]
structure Camera where
  position : Vec3
  yaw : ℝ
  pitch : ℝ

/-- Camera view_matrix from src camera.rs: a right-handed look-to with the
forward direction built from yaw and pitch and world up Y. -/
def Camera.viewMatrix (c : Camera) : Mat4 :=
  lookToRh c.position
    ⟨Real.cos c.pitch * Real.cos c.yaw, Real.sin c.pitch,
     Real.cos c.pitch * Real.sin c.yaw⟩
    Vec3.Y

/-- SAFE_FRAC_PI_2 from src camera.rs: pi over two minus a small epsilon. -/
def SAFE_FRAC_PI_2 : ℝ := Real.pi / 2 - 0.0001

/-- CameraController state from src camera.rs. -/
@[ext]
structure CameraController where
  amount_left : ℝ
  amount_right : ℝ
  amount_forward : ℝ
  amount_backward : ℝ
  amount_up : ℝ
  amount_down : ℝ
  rotate_horizontal : ℝ
  rotate_vertical : ℝ
  speed : ℝ
  sensitivity : ℝ

/-- CameraController new from src camera.rs: all amounts and accumulators
start at zero. -/
def CameraController.new (speed sensitivity : ℝ) : CameraController :=
  ⟨0, 0, 0, 0, 0, 0, 0, 0, speed, sensitivity⟩

/-- The key codes the controller handles, plus one standing for every
unrecognized key. -/
inductive KeyCode where
  | keyW
  | keyS
  | keyA
  | keyD
  | arrowUp
  | arrowDown
  | arrowLeft
  | arrowRight
  | space
  | shiftLeft
  | unhandled

/-- CameraController process_keyboard from src camera.rs: sets the matching
directional amount to one on press and zero on release, returns whether the
key was handled. -/
def CameraController.process_keyboard (c : CameraController) (key : KeyCode)
    (pressed : Bool) : CameraController × Bool :=
  let amount : ℝ := if pressed then 1.0 else 0.0
  match key with
  | .keyW | .arrowUp => ({ c with amount_forward := amount }, true)
  | .keyS | .arrowDown => ({ c with amount_backward := amount }, true)
  | .keyA | .arrowLeft => ({ c with amount_left := amount }, true)
  | .keyD | .arrowRight => ({ c with amount_right := amount }, true)
  | .space => ({ c with amount_up := amount }, true)
  | .shiftLeft => ({ c with amount_down := amount }, true)
  | .unhandled => (c, false)

/-- CameraController handle_mouse from src camera.rs: adds the raw deltas
to the rotation accumulators. -/
def CameraController.handle_mouse (c : CameraController) (dx dy : ℝ) :
    CameraController :=
  { c with rotate_horizontal := c.rotate_horizontal + dx,
           rotate_vertical := c.rotate_vertical + dy }

/-- CameraController update_camera from src camera.rs: moves the camera
along the normalized forward, right and up directions scaled by the input
amounts, speed and dt, applies the accumulated rotation to yaw and pitch,
resets both accumulators to zero, and clamps pitch to the safe range. -/
def CameraController.update_camera (c : CameraController) (cam : Camera)
    (dt : ℝ) : CameraController × Camera :=
  let forward := (Vec3.normalize
    ⟨Real.cos cam.pitch * Real.cos cam.yaw, Real.sin cam.pitch,
     Real.cos cam.pitch * Real.sin cam.yaw⟩)
  let right := (Vec3.normalize ⟨-Real.sin cam.yaw, 0, Real.cos cam.yaw⟩)
  let up := Vec3.Y
  let pos1 := cam.position + ((c.amount_forward - c.amount_backward) * c.speed * dt) • forward
  let pos2 := pos1 + ((c.amount_right - c.amount_left) * c.speed * dt) • right
  let pos3 := pos2 + ((c.amount_up - c.amount_down) * c.speed * dt) • up
  let yaw1 := cam.yaw + toRadians c.rotate_horizontal * c.sensitivity * dt
  let pitch1 := cam.pitch + toRadians (-c.rotate_vertical) * c.sensitivity * dt
  let pitch2 := clamp pitch1 (-SAFE_FRAC_PI_2) SAFE_FRAC_PI_2
  ({ c with rotate_horizontal := 0, rotate_vertical := 0 },
   { cam with position := pos3, yaw := yaw1, pitch := pitch2 })

/-- One input or frame event reaching the camera controller. -/
inductive CamEvent where
  | key (k : KeyCode) (pressed : Bool)
  | mouse (dx dy : ℝ)
  | update (dt : ℝ)

/-- One step of the event loop on the controller and camera pair, routing
key events to process_keyboard, mouse motion to handle_mouse, and frame
ticks to update_camera, as App does in src app.rs. -/
def camStep (s : CameraController × Camera) : CamEvent → CameraController × Camera
  | .key k pressed => ((s.1.process_keyboard k pressed).1, s.2)
  | .mouse dx dy => (s.1.handle_mouse dx dy, s.2)
  | .update dt => s.1.update_camera s.2 dt

/-- The camera built in CameraContainer new in src camera.rs. -/
def initialCamera : Camera :=
  ⟨⟨0, 5, 10⟩, toRadians (-90), toRadians (-20)⟩

/-- The controller built in CameraContainer new in src camera.rs. -/
def initialController : CameraController := CameraController.new 4.0 12.0

/-- Run a list of events from the initial controller and camera state. -/
def runCamera (events : List CamEvent) : CameraController × Camera :=
  events.foldl camStep (initialController, initialCamera)

/-- Body instance from src instance.rs together with the scale field that
the constructor calls in src planets.rs and src sun.rs pass as a fourth
argument; the instance.rs in src predates that field, so it is taken from
those callers and the spec data model for Body. -/
@[ext]
structure Instance where
  position : Vec3
  rotation : Quat
  texture_index : ℕ
  scale : ℝ

/-- GPU-visible instance record from src instance.rs; the six f32 padding
lanes are constant zero and carry no information, so they are omitted. -/
structure InstanceRaw where
  model_matrix : Mat4
  normal_matrix : Mat3
  texture_index : ℕ

/-- Conversion from Instance to InstanceRaw in src instance.rs: the model
matrix is the translation by the position times the rotation of the
quaternion, and the normal matrix is the 3 by 3 rotation matrix. -/
def InstanceRaw.from (v : Instance) : InstanceRaw where
  model_matrix := mat4Mul (Mat4.fromTranslation v.position) (Mat4.fromQuat v.rotation)
  normal_matrix := Mat3.fromQuat v.rotation
  texture_index := v.texture_index

/-- PLANETS_COUNT from src planets.rs. -/
@[reducible] def PLANETS_COUNT : ℕ := 8

/-- PLANETS_RADIUS from src planets.rs. -/
def PLANETS_RADIUS (i : Fin PLANETS_COUNT) : ℝ :=
  [12.5, 17.5, 25.0, 32.5, 42.5, 55.0, 65.0, 77.5].get i

/-- PLANETS_SCALE from src planets.rs. -/
def PLANETS_SCALE (i : Fin PLANETS_COUNT) : ℝ :=
  [0.5, 0.7, 1.3, 1.0, 3.0, 2.5, 1.8, 1.8].get i

/-- INITIAL_OFFSET from src planets.rs: phase offsets as multiples of pi. -/
def INITIAL_OFFSET (i : Fin PLANETS_COUNT) : ℝ :=
  [Real.pi / 4 * 3, Real.pi / 4 * 7, Real.pi * 2, Real.pi / 2 * 3,
   Real.pi / 2, Real.pi / 4 * 5, Real.pi, Real.pi / 4].get i

/-- The initial planet instances built in Planets new in src planets.rs:
each planet starts on its circle at its phase offset, spinning about the
normalized position by five degrees per index. -/
def planetsNew (i : Fin PLANETS_COUNT) : Instance :=
  let initial_offset := INITIAL_OFFSET i
  let radius := PLANETS_RADIUS i
  let position : Vec3 :=
    ⟨radius * Real.cos initial_offset, 0, radius * Real.sin initial_offset⟩
  let rotation := Quat.fromAxisAngle position.normalize (toRadians (5 * (i : ℕ)))
  ⟨position, rotation, (i : ℕ), PLANETS_SCALE i⟩

/-- Planets update from src planets.rs: at elapsed time t each planet is
placed on its circle at angle t times its movement speed plus its offset,
and its rotation becomes a spin about Y at t times its rotation speed. -/
def planetsUpdate (instances : Fin PLANETS_COUNT → Instance) (t : ℝ) :
    Fin PLANETS_COUNT → Instance := fun i =>
  let radius := PLANETS_RADIUS i
  let offset := INITIAL_OFFSET i
  let if32 : ℝ := (i : ℕ)
  let movement_speed := 0.15 - 0.015 * if32 - 0.0002 * if32 * if32
  let movement_angle := t * movement_speed + offset
  let rotation_speed := 0.5 - 0.05 * if32
  let rotation_angle := t * rotation_speed
  { instances i with
      position := ⟨radius * Real.cos movement_angle, 0, radius * Real.sin movement_angle⟩,
      rotation := Quat.fromRotationY rotation_angle }

/-- Run the planets through a list of update times starting from the
initial instances. -/
def planetsRun (ts : List ℝ) : Fin PLANETS_COUNT → Instance :=
  ts.foldl planetsUpdate planetsNew

/-- The sun instance built in Sun new in src sun.rs: at the origin, with
no initial spin, texture zero and scale 6.5. -/
def sunNew : Instance :=
  ⟨⟨0, 0, 0⟩, Quat.fromRotationY 0, 0, 6.5⟩

/-- Sun update from src sun.rs: only the rotation changes, a spin about Y
at elapsed time t times the constant rate 0.12. -/
def sunUpdate (s : Instance) (t : ℝ) : Instance :=
  { s with rotation := Quat.fromRotationY (t * 0.12) }

/-- Run the sun through a list of update times starting from the initial
instance. -/
def sunRun (ts : List ℝ) : Instance :=
  ts.foldl sunUpdate sunNew

/-- NUM_INSTANCES_PER_ROW from src app.rs. -/
@[reducible] def NUM_INSTANCES_PER_ROW : ℕ := 15

/-- SPACE_BETWEEN from src app.rs State new. -/
def SPACE_BETWEEN : ℝ := 3.0

/-- INSTANCE_DISPLACEMENT from src app.rs. -/
def INSTANCE_DISPLACEMENT : Vec3 :=
  ⟨(NUM_INSTANCES_PER_ROW : ℝ) * 0.5, 0, (NUM_INSTANCES_PER_ROW : ℝ) * 0.5⟩

/-- Position of the grid instance at column x and row z in State new in
src app.rs. -/
def gridPosition (x z : Fin NUM_INSTANCES_PER_ROW) : Vec3 :=
  let xf := SPACE_BETWEEN * ((x : ℕ) - (NUM_INSTANCES_PER_ROW : ℝ) / 2)
  let zf := SPACE_BETWEEN * ((z : ℕ) - (NUM_INSTANCES_PER_ROW : ℝ) / 2)
  (⟨xf, 0, zf⟩ : Vec3) - INSTANCE_DISPLACEMENT

open Classical in
/-- Rotation of the grid instance at column x and row z in State new in
src app.rs: a body at the exact zero position gets a fixed Z axis instead
of a normalized zero-length axis. -/
def gridRotation (x z : Fin NUM_INSTANCES_PER_ROW) : Quat :=
  if gridPosition x z = Vec3.ZERO then
    Quat.fromAxisAngle ⟨0, 0, 1⟩ 0
  else
    Quat.fromAxisAngle (gridPosition x z).normalize (toRadians 45)

open Classical in
/-- The spin axis the grid rotation above is built from. -/
def gridSpinAxis (x z : Fin NUM_INSTANCES_PER_ROW) : Vec3 :=
  if gridPosition x z = Vec3.ZERO then ⟨0, 0, 1⟩
  else (gridPosition x z).normalize

/-- The size-dependent part of the render state in src app.rs: the surface
configuration, the configured flag, the depth texture with a generation
counter that grows on every reallocation, and the projection aspect ratio.
Aspect division is idealized as exact rational division. -/
@[ext]
structure State where
  config_width : ℕ
  config_height : ℕ
  is_surface_configured : Bool
  depth_texture_width : ℕ
  depth_texture_height : ℕ
  depth_texture_generation : ℕ
  projection_aspect : ℚ

/-- State resize from src app.rs: only when both dimensions are positive,
the surface configuration takes the new size, the surface is reconfigured,
a fresh depth texture is created at the configuration size, and the
projection aspect is recomputed; otherwise nothing changes. -/
def State.resize (s : State) (width height : ℕ) : State :=
  if 0 < width ∧ 0 < height then
    { s with
        config_width := width,
        config_height := height,
        is_surface_configured := true,
        depth_texture_width := width,
        depth_texture_height := height,
        depth_texture_generation := s.depth_texture_generation + 1,
        projection_aspect := (width : ℚ) / (height : ℚ) }
  else s

/-- Surface acquisition errors of wgpu as matched in src app.rs. -/
inductive SurfaceError where
  | timeout
  | outdated
  | lost
  | outOfMemory
  | other
deriving DecidableEq

/-- Outcome of handling one failed frame: the state afterwards, whether the
event loop was asked to exit, and whether the error was logged. -/
structure HandlerResult where
  state : State
  exited : Bool
  logged : Bool

/-- The RedrawRequested error arm of App window_event in src app.rs: a
lost or outdated surface triggers a resize at the current window size,
any other error is logged; neither arm exits the event loop, and in both
cases the failed frame is simply skipped. -/
def handleRenderError (s : State) (winWidth winHeight : ℕ)
    (e : SurfaceError) : HandlerResult :=
  match e with
  | .lost | .outdated => ⟨s.resize winWidth winHeight, false, false⟩
  | _ => ⟨s, false, true⟩

/-- The two color render targets a frame writes to. -/
inductive RenderTarget where
  | hdrTexture
  | surface
deriving DecidableEq

/-- One GPU operation recorded into the frame command encoder. -/
inductive GpuOp where
  | beginRenderPass (target : RenderTarget) (usesDepth : Bool)
  | setPipeline (label : String)
  | setVertexBuffer (slot : ℕ) (buffer : String)
  | setIndexBuffer (buffer : String)
  | setBindGroup (slot : ℕ) (group : String)
  | drawIndexed (indices instances : ℕ)
  | draw (vertices instances : ℕ)
  | endRenderPass

/-- Index count of the shared sphere mesh from src sphere.rs: 128 by 128
segments, six indices per quad. -/
def sphereNumElements : ℕ := 128 * 128 * 6

/-- Index count of the ring mesh from src ring.rs: 128 segments, six
indices per segment. -/
def ringNumElements : ℕ := 128 * 6

/-- Operations of draw_sphere_instanced from src sphere.rs. -/
def drawSphereInstancedOps (instances : ℕ) : List GpuOp :=
  [.setVertexBuffer 0 "sphere_vertex_buffer",
   .setIndexBuffer "sphere_index_buffer",
   .setBindGroup 1 "camera_bind_group",
   .setBindGroup 2 "light_bind_group",
   .drawIndexed sphereNumElements instances]

/-- Operations of draw_planets from src planets.rs: pipeline, texture
array, instance buffer, then the instanced sphere draw over all eight
planets. -/
def drawPlanetsOps : List GpuOp :=
  [.setPipeline "render_pipeline_planets",
   .setBindGroup 0 "planets_texture_array_bind_group",
   .setVertexBuffer 1 "planets_instance_buffer"] ++
  drawSphereInstancedOps PLANETS_COUNT

/-- Operations of draw_sun from src sun.rs: pipeline, sun texture, sun
instance buffer, then one instanced sphere draw. -/
def drawSunOps : List GpuOp :=
  [.setPipeline "render_pipelie_sun",
   .setBindGroup 0 "sun_texture_bind_group",
   .setVertexBuffer 1 "sun_instance_buffer"] ++
  drawSphereInstancedOps 1

/-- Operations of draw_ring from src ring.rs. -/
def drawRingOps : List GpuOp :=
  [.setPipeline "render_pipeline_ring",
   .setBindGroup 0 "ring_texture_bind_group",
   .setVertexBuffer 0 "ring_vertex_buffer",
   .setVertexBuffer 1 "ring_instance_buffer",
   .setIndexBuffer "ring_index_buffer",
   .setBindGroup 1 "camera_bind_group",
   .setBindGroup 2 "light_bind_group",
   .drawIndexed ringNumElements 1]

/-- Operations of draw_skybox from src skybox.rs: pipeline, camera and
environment bind groups, then a procedural full-screen triangle. -/
def drawSkyboxOps : List GpuOp :=
  [.setPipeline "render_pipeline_skybox",
   .setBindGroup 0 "camera_bind_group",
   .setBindGroup 1 "environment_bind_group",
   .draw 3 1]

/-- Operations of HdrPipeline process from src hdr.rs: a render pass on
the presentable surface view with no depth attachment, sampling the
intermediate HDR texture through its bind group and drawing a procedural
full-screen triangle. -/
def hdrProcessOps : List GpuOp :=
  [.beginRenderPass .surface false,
   .setPipeline "render_pipeline_hdr",
   .setBindGroup 0 "hdr_bind_group",
   .draw 3 1,
   .endRenderPass]

/-- Modelled from the spec: the per-frame orchestration of State render is
not in src (the app.rs in src is a stale revision that predates the hdr,
ring and skybox modules it would have to call), so the frame sequence
follows section 4.5 of the spec: one geometry pass into the intermediate
HDR target with depth drawing opaque bodies, sun, ring and skybox through
the draw helpers of src, followed by the tonemap resolve pass of
HdrPipeline process as the last submitted work. -/
def renderFrameOps : List GpuOp :=
  [GpuOp.beginRenderPass .hdrTexture true] ++
  drawPlanetsOps ++ drawSunOps ++ drawRingOps ++ drawSkyboxOps ++
  [GpuOp.endRenderPass] ++ hdrProcessOps

/-- The pipeline label of a set-pipeline operation. -/
def pipelineOf : GpuOp → Option String
  | .setPipeline label => some label
  | _ => none

/-- The color target of a begin-render-pass operation. -/
def beginTargetOf : GpuOp → Option RenderTarget
  | .beginRenderPass target _ => some target
  | _ => none

end

section Lemmas

theorem Vec3.add_def (a b : Vec3) : a + b = ⟨a.x + b.x, a.y + b.y, a.z + b.z⟩ := rfl

theorem Vec3.sub_def (a b : Vec3) : a - b = ⟨a.x - b.x, a.y - b.y, a.z - b.z⟩ := rfl

theorem Vec3.smul_def (k : ℝ) (v : Vec3) : k • v = ⟨k * v.x, k * v.y, k * v.z⟩ := rfl

/-- A vector on the circle of radius R in the XZ plane has length R. -/
theorem length_circle (R θ : ℝ) (hR : 0 ≤ R) :
    Vec3.length ⟨R * Real.cos θ, 0, R * Real.sin θ⟩ = R := by
  have h : Vec3.dot ⟨R * Real.cos θ, 0, R * Real.sin θ⟩
      ⟨R * Real.cos θ, 0, R * Real.sin θ⟩ = R ^ 2 := by
    simp only [Vec3.dot]
    nlinarith [Real.sin_sq_add_cos_sq θ]
  rw [Vec3.length, h, Real.sqrt_sq hR]

/-- The forward direction built from pitch and yaw is a unit vector. -/
theorem length_forward (p y : ℝ) :
    Vec3.length ⟨Real.cos p * Real.cos y, Real.sin p, Real.cos p * Real.sin y⟩ = 1 := by
  have h : Vec3.dot ⟨Real.cos p * Real.cos y, Real.sin p, Real.cos p * Real.sin y⟩
      ⟨Real.cos p * Real.cos y, Real.sin p, Real.cos p * Real.sin y⟩ = 1 := by
    simp only [Vec3.dot]
    nlinarith [Real.sin_sq_add_cos_sq p, Real.sin_sq_add_cos_sq y]
  rw [Vec3.length, h, Real.sqrt_one]

/-- Normalizing a vector that already has length one leaves it unchanged. -/
theorem normalize_eq_self_of_length_one (v : Vec3) (hv : v.length = 1) :
    v.normalize = v := by
  ext <;> simp [Vec3.normalize, hv, Vec3.smul_def]

/-- The self dot product of a nonzero vector is positive. -/
theorem dot_self_pos (v : Vec3) (hv : v ≠ Vec3.ZERO) : 0 < v.dot v := by
  have hd : v.dot v = v.x * v.x + v.y * v.y + v.z * v.z := rfl
  have hge : (0:ℝ) ≤ v.dot v := by
    rw [hd]
    nlinarith [mul_self_nonneg v.x, mul_self_nonneg v.y, mul_self_nonneg v.z]
  rcases lt_or_eq_of_le hge with h | h
  · exact h
  · exfalso
    apply hv
    have hsum : v.x * v.x + v.y * v.y + v.z * v.z = 0 := by rw [← hd, ← h]
    have hx : v.x = 0 := mul_self_eq_zero.mp
      (le_antisymm (by linarith [mul_self_nonneg v.y, mul_self_nonneg v.z]) (mul_self_nonneg v.x))
    have hy : v.y = 0 := mul_self_eq_zero.mp
      (le_antisymm (by linarith [mul_self_nonneg v.x, mul_self_nonneg v.z]) (mul_self_nonneg v.y))
    have hz : v.z = 0 := mul_self_eq_zero.mp
      (le_antisymm (by linarith [mul_self_nonneg v.x, mul_self_nonneg v.y]) (mul_self_nonneg v.z))
    ext <;> simp [hx, hy, hz, Vec3.ZERO]

/-- A nonzero vector has positive length. -/
theorem length_pos (v : Vec3) (hv : v ≠ Vec3.ZERO) : 0 < v.length :=
  Real.sqrt_pos.mpr (dot_self_pos v hv)

/-- Normalizing a nonzero vector yields a unit vector. -/
theorem normalize_length_one (v : Vec3) (hv : v ≠ Vec3.ZERO) :
    v.normalize.length = 1 := by
  have hd := dot_self_pos v hv
  have hlp := length_pos v hv
  have hsq : v.length ^ 2 = v.dot v := Real.sq_sqrt (le_of_lt hd)
  have h1 : Vec3.dot v.normalize v.normalize = 1 := by
    have : Vec3.dot v.normalize v.normalize = (1 / v.length) ^ 2 * Vec3.dot v v := by
      simp only [Vec3.normalize, Vec3.smul_def, Vec3.dot]
      ring
    rw [this, ← hsq]
    field_simp
  rw [Vec3.length, h1, Real.sqrt_one]

/-- The clamped value lies between the bounds whenever they are ordered. -/
theorem clamp_mem (x lo hi : ℝ) (h : lo ≤ hi) :
    lo ≤ clamp x lo hi ∧ clamp x lo hi ≤ hi :=
  ⟨le_min (le_max_right x lo) h, min_le_right _ _⟩

/-- The safe pitch bound is positive. -/
theorem safe_frac_pi_2_pos : 0 < SAFE_FRAC_PI_2 := by
  have := Real.pi_gt_three
  rw [SAFE_FRAC_PI_2]
  norm_num
  linarith

/-- Every planet radius in the table is positive. -/
theorem planets_radius_pos (i : Fin PLANETS_COUNT) : 0 < PLANETS_RADIUS i := by
  fin_cases i <;> norm_num [PLANETS_RADIUS]

theorem planets_radius_nonneg (i : Fin PLANETS_COUNT) : 0 ≤ PLANETS_RADIUS i :=
  le_of_lt (planets_radius_pos i)

/-- Planet updates never touch the scale field. -/
theorem foldl_planetsUpdate_scale (ts : List ℝ) (s : Fin PLANETS_COUNT → Instance)
    (i : Fin PLANETS_COUNT) : (ts.foldl planetsUpdate s i).scale = (s i).scale := by
  induction ts generalizing s with
  | nil => rfl
  | cons t tl ih => rw [List.foldl_cons, ih]; rfl

/-- Planet updates never touch the texture index field. -/
theorem foldl_planetsUpdate_texture (ts : List ℝ) (s : Fin PLANETS_COUNT → Instance)
    (i : Fin PLANETS_COUNT) :
    (ts.foldl planetsUpdate s i).texture_index = (s i).texture_index := by
  induction ts generalizing s with
  | nil => rfl
  | cons t tl ih => rw [List.foldl_cons, ih]; rfl

/-- Sun updates only touch the rotation field. -/
theorem foldl_sunUpdate_fields (ts : List ℝ) (s : Instance) :
    (ts.foldl sunUpdate s).position = s.position ∧
    (ts.foldl sunUpdate s).texture_index = s.texture_index ∧
    (ts.foldl sunUpdate s).scale = s.scale := by
  induction ts generalizing s with
  | nil => exact ⟨rfl, rfl, rfl⟩
  | cons t tl ih => rw [List.foldl_cons]; exact ih (sunUpdate s t)

/-- One event loop step keeps the pitch inside the safe range. -/
theorem camStep_pitch_in_range (s : CameraController × Camera) (e : CamEvent)
    (h : -SAFE_FRAC_PI_2 ≤ s.2.pitch ∧ s.2.pitch ≤ SAFE_FRAC_PI_2) :
    -SAFE_FRAC_PI_2 ≤ (camStep s e).2.pitch ∧ (camStep s e).2.pitch ≤ SAFE_FRAC_PI_2 := by
  cases e with
  | key k pressed => exact h
  | mouse dx dy => exact h
  | update dt =>
      have hlh : -SAFE_FRAC_PI_2 ≤ SAFE_FRAC_PI_2 := by
        linarith [safe_frac_pi_2_pos]
      exact clamp_mem _ _ _ hlh

/-- The initial camera pitch of minus twenty degrees lies inside the safe
range. -/
theorem initial_pitch_in_range :
    -SAFE_FRAC_PI_2 ≤ initialCamera.pitch ∧ initialCamera.pitch ≤ SAFE_FRAC_PI_2 := by
  have h3 := Real.pi_gt_three
  constructor <;>
    simp only [initialCamera, SAFE_FRAC_PI_2, toRadians] <;>
    norm_num <;> linarith

end Lemmas

section Claims

/-- C4: after any sequence of camera controller events starting from the
initial state, with arbitrary interleaved keyboard and mouse input and
arbitrary dt values, the camera pitch always lies within the closed range
from minus pi over two plus epsilon to pi over two minus epsilon, with the
fixed epsilon 0.0001 of SAFE_FRAC_PI_2. -/
theorem camera_pitch_always_in_safe_range (events : List CamEvent) :
    -(Real.pi / 2 - 0.0001) ≤ (runCamera events).2.pitch ∧
      (runCamera events).2.pitch ≤ Real.pi / 2 - 0.0001 := by
  have main : ∀ (evs : List CamEvent) (s : CameraController × Camera),
      (-SAFE_FRAC_PI_2 ≤ s.2.pitch ∧ s.2.pitch ≤ SAFE_FRAC_PI_2) →
      (-SAFE_FRAC_PI_2 ≤ (evs.foldl camStep s).2.pitch ∧
        (evs.foldl camStep s).2.pitch ≤ SAFE_FRAC_PI_2) := by
    intro evs
    induction evs with
    | nil => intro s h; exact h
    | cons e tl ih =>
        intro s h
        rw [List.foldl_cons]
        exact ih _ (camStep_pitch_in_range s e h)
  exact main events (initialController, initialCamera) initial_pitch_in_range

/-- C6: a resize request with a zero width or a zero height is a no-op:
the surface configuration, the configured flag, the depth texture and the
projection aspect ratio are all left unchanged and no size-dependent
resource is reallocated. -/
theorem resize_zero_dimension_noop (s : State) (width height : ℕ)
    (h : width = 0 ∨ height = 0) : s.resize width height = s := by
  rcases h with h0 | h0 <;> subst h0 <;> simp [State.resize]

theorem resize_zero_dimension_noop_witness :
    State.resize ⟨800, 600, true, 800, 600, 1, 4 / 3⟩ 0 720 =
      ⟨800, 600, true, 800, 600, 1, 4 / 3⟩ :=
  resize_zero_dimension_noop ⟨800, 600, true, 800, 600, 1, 4 / 3⟩ 0 720 (Or.inl rfl)

/-- C7: after any sequence of mouse accumulation calls followed by one
update call, both rotation accumulators are exactly zero; the output yaw
and pitch are computed from the accumulated values, so the accumulators
are applied before being reset, and the reset happens in the update call
itself. -/
theorem rotation_accumulators_reset_after_update (deltas : List (ℝ × ℝ))
    (c : CameraController) (cam : Camera) (dt : ℝ) :
    ((deltas.foldl (fun acc d => acc.handle_mouse d.1 d.2) c).update_camera cam dt).1.rotate_horizontal = 0 ∧
    ((deltas.foldl (fun acc d => acc.handle_mouse d.1 d.2) c).update_camera cam dt).1.rotate_vertical = 0 ∧
    (∀ ctrl : CameraController,
      (ctrl.update_camera cam dt).2.yaw =
        cam.yaw + toRadians ctrl.rotate_horizontal * ctrl.sensitivity * dt ∧
      (ctrl.update_camera cam dt).2.pitch =
        clamp (cam.pitch + toRadians (-ctrl.rotate_vertical) * ctrl.sensitivity * dt)
          (-SAFE_FRAC_PI_2) SAFE_FRAC_PI_2) :=
  ⟨rfl, rfl, fun _ => ⟨rfl, rfl⟩⟩

/-- C10: the GPU instance record computes its model matrix as the
translation by the position times the quaternion rotation, with no scale
factor: changing the scale of a body does not change the record at all,
the upper-left 3 by 3 block of the model matrix equals the normal matrix,
which is the pure rotation matrix of the quaternion, and the fourth column
carries exactly the translation. -/
theorem instance_raw_model_ignores_scale (v : Instance) (s : ℝ) :
    InstanceRaw.from { v with scale := s } = InstanceRaw.from v ∧
    ((InstanceRaw.from v).model_matrix.m00 = (InstanceRaw.from v).normal_matrix.m00 ∧
     (InstanceRaw.from v).model_matrix.m01 = (InstanceRaw.from v).normal_matrix.m01 ∧
     (InstanceRaw.from v).model_matrix.m02 = (InstanceRaw.from v).normal_matrix.m02 ∧
     (InstanceRaw.from v).model_matrix.m10 = (InstanceRaw.from v).normal_matrix.m10 ∧
     (InstanceRaw.from v).model_matrix.m11 = (InstanceRaw.from v).normal_matrix.m11 ∧
     (InstanceRaw.from v).model_matrix.m12 = (InstanceRaw.from v).normal_matrix.m12 ∧
     (InstanceRaw.from v).model_matrix.m20 = (InstanceRaw.from v).normal_matrix.m20 ∧
     (InstanceRaw.from v).model_matrix.m21 = (InstanceRaw.from v).normal_matrix.m21 ∧
     (InstanceRaw.from v).model_matrix.m22 = (InstanceRaw.from v).normal_matrix.m22) ∧
    ((InstanceRaw.from v).model_matrix.m03 = v.position.x ∧
     (InstanceRaw.from v).model_matrix.m13 = v.position.y ∧
     (InstanceRaw.from v).model_matrix.m23 = v.position.z ∧
     (InstanceRaw.from v).model_matrix.m30 = 0 ∧
     (InstanceRaw.from v).model_matrix.m31 = 0 ∧
     (InstanceRaw.from v).model_matrix.m32 = 0 ∧
     (InstanceRaw.from v).model_matrix.m33 = 1) := by
  refine ⟨rfl, ⟨?_, ?_, ?_, ?_, ?_, ?_, ?_, ?_, ?_⟩, ⟨?_, ?_, ?_, ?_, ?_, ?_, ?_⟩⟩ <;>
    simp only [InstanceRaw.from, mat4Mul, Mat4.fromTranslation, Mat4.fromQuat,
      Mat3.fromQuat] <;> ring

/-- C1: for every planet index i and every elapsed time t at least zero,
the update places planet i at the position R i times the cosine and sine
of the angle omega times t plus the phase offset, in the XZ plane, where
omega is 0.15 minus 0.015 i minus 0.0002 i squared, and sets its
self-rotation to the angle 0.5 minus 0.05 i times t about the up axis; the
position always has length R i, and planet zero at time zero sits at
12.5 times the cosine and sine of three quarters pi. -/
theorem planets_update_orbital_model (s : Fin PLANETS_COUNT → Instance)
    (i : Fin PLANETS_COUNT) (t : ℝ) (ht : 0 ≤ t) :
    (planetsUpdate s t i).position =
      ⟨PLANETS_RADIUS i *
         Real.cos ((0.15 - 0.015 * ((i : ℕ) : ℝ) - 0.0002 * ((i : ℕ) : ℝ) ^ 2) * t
           + INITIAL_OFFSET i),
       0,
       PLANETS_RADIUS i *
         Real.sin ((0.15 - 0.015 * ((i : ℕ) : ℝ) - 0.0002 * ((i : ℕ) : ℝ) ^ 2) * t
           + INITIAL_OFFSET i)⟩ ∧
    (planetsUpdate s t i).rotation =
      Quat.fromAxisAngle ⟨0, 1, 0⟩ ((0.5 - 0.05 * ((i : ℕ) : ℝ)) * t) ∧
    (planetsUpdate s t i).position.length = PLANETS_RADIUS i ∧
    (planetsUpdate s 0 (0 : Fin PLANETS_COUNT)).position =
      ⟨12.5 * Real.cos (3 * Real.pi / 4), 0, 12.5 * Real.sin (3 * Real.pi / 4)⟩ := by
  have harg : t * (0.15 - 0.015 * ((i : ℕ) : ℝ) - 0.0002 * ((i : ℕ) : ℝ) * ((i : ℕ) : ℝ))
        + INITIAL_OFFSET i
      = (0.15 - 0.015 * ((i : ℕ) : ℝ) - 0.0002 * ((i : ℕ) : ℝ) ^ 2) * t
        + INITIAL_OFFSET i := by
    ring
  have h1 : (planetsUpdate s t i).position =
      ⟨PLANETS_RADIUS i *
         Real.cos ((0.15 - 0.015 * ((i : ℕ) : ℝ) - 0.0002 * ((i : ℕ) : ℝ) ^ 2) * t
           + INITIAL_OFFSET i),
       0,
       PLANETS_RADIUS i *
         Real.sin ((0.15 - 0.015 * ((i : ℕ) : ℝ) - 0.0002 * ((i : ℕ) : ℝ) ^ 2) * t
           + INITIAL_OFFSET i)⟩ := by
    simp only [planetsUpdate]
    rw [harg]
  refine ⟨h1, ?_, ?_, ?_⟩
  · have harg2 : t * (0.5 - 0.05 * ((i : ℕ) : ℝ)) * 0.5
        = (0.5 - 0.05 * ((i : ℕ) : ℝ)) * t * 0.5 := by ring
    simp only [planetsUpdate, Quat.fromRotationY, Quat.fromAxisAngle, harg2]
    norm_num
  · rw [h1]
    exact length_circle _ _ (planets_radius_nonneg i)
  · have h4 : (0 : ℝ) * (0.15 - 0.015 * (((0 : Fin PLANETS_COUNT) : ℕ) : ℝ)
          - 0.0002 * (((0 : Fin PLANETS_COUNT) : ℕ) : ℝ) * (((0 : Fin PLANETS_COUNT) : ℕ) : ℝ))
        + INITIAL_OFFSET (0 : Fin PLANETS_COUNT) = 3 * Real.pi / 4 := by
      rw [show INITIAL_OFFSET (0 : Fin PLANETS_COUNT) = Real.pi / 4 * 3 from rfl]
      ring
    simp only [planetsUpdate, h4]
    rfl

theorem planets_update_orbital_model_witness :
    (planetsUpdate planetsNew 1 (0 : Fin PLANETS_COUNT)).position.length =
      PLANETS_RADIUS (0 : Fin PLANETS_COUNT) :=
  (planets_update_orbital_model planetsNew (0 : Fin PLANETS_COUNT) 1 (by norm_num)).2.2.1

/-- C2: the orbital model is a pure function of elapsed time: whatever
sequence of earlier update calls preceded it, an update at elapsed time t
leaves the planets and the sun in a state depending only on t, so two runs
ending with the same elapsed time agree on every body transform. -/
theorem orbital_model_pure_in_elapsed_time (ts1 ts2 : List ℝ) (t : ℝ) :
    planetsRun (ts1 ++ [t]) = planetsRun (ts2 ++ [t]) ∧
      sunRun (ts1 ++ [t]) = sunRun (ts2 ++ [t]) := by
  constructor
  · rw [planetsRun, planetsRun, List.foldl_append, List.foldl_append,
      List.foldl_cons, List.foldl_nil, List.foldl_cons, List.foldl_nil]
    funext i
    simp only [planetsUpdate]
    rw [foldl_planetsUpdate_scale, foldl_planetsUpdate_scale,
      foldl_planetsUpdate_texture, foldl_planetsUpdate_texture]
  · rw [sunRun, sunRun, List.foldl_append, List.foldl_append,
      List.foldl_cons, List.foldl_nil, List.foldl_cons, List.foldl_nil]
    simp only [sunUpdate]
    obtain ⟨hp1, ht1, hs1⟩ := foldl_sunUpdate_fields ts1 sunNew
    obtain ⟨hp2, ht2, hs2⟩ := foldl_sunUpdate_fields ts2 sunNew
    rw [hp1, hp2, ht1, ht2, hs1, hs2]

/-- C5: when a frame fails because the surface is lost or outdated, the
handler resizes at the current window size, which for positive dimensions
reconfigures the surface at that size, and the event loop is not exited;
for any other surface error the error is logged, the state is left
untouched and the loop likewise continues, the failed frame being skipped
in both cases. -/
theorem surface_error_recovery (s : State) (w h : ℕ) (e : SurfaceError) :
    (handleRenderError s w h e).exited = false ∧
    ((e = SurfaceError.lost ∨ e = SurfaceError.outdated) →
      (handleRenderError s w h e).state = s.resize w h ∧
      (0 < w → 0 < h →
        (handleRenderError s w h e).state.config_width = w ∧
        (handleRenderError s w h e).state.config_height = h ∧
        (handleRenderError s w h e).state.is_surface_configured = true)) ∧
    (e ≠ SurfaceError.lost → e ≠ SurfaceError.outdated →
      (handleRenderError s w h e).state = s ∧
      (handleRenderError s w h e).logged = true) := by
  cases e with
  | lost =>
      refine ⟨rfl, fun _ => ⟨rfl, fun hw hh => ?_⟩, fun hne _ => absurd rfl hne⟩
      show (s.resize w h).config_width = w ∧ (s.resize w h).config_height = h ∧
        (s.resize w h).is_surface_configured = true
      simp only [State.resize]
      rw [if_pos (⟨hw, hh⟩ : 0 < w ∧ 0 < h)]
      exact ⟨rfl, rfl, rfl⟩
  | outdated =>
      refine ⟨rfl, fun _ => ⟨rfl, fun hw hh => ?_⟩, fun _ hne => absurd rfl hne⟩
      show (s.resize w h).config_width = w ∧ (s.resize w h).config_height = h ∧
        (s.resize w h).is_surface_configured = true
      simp only [State.resize]
      rw [if_pos (⟨hw, hh⟩ : 0 < w ∧ 0 < h)]
      exact ⟨rfl, rfl, rfl⟩
  | timeout =>
      exact ⟨rfl, fun hor => by rcases hor with h | h <;> simp at h,
        fun _ _ => ⟨rfl, rfl⟩⟩
  | outOfMemory =>
      exact ⟨rfl, fun hor => by rcases hor with h | h <;> simp at h,
        fun _ _ => ⟨rfl, rfl⟩⟩
  | other =>
      exact ⟨rfl, fun hor => by rcases hor with h | h <;> simp at h,
        fun _ _ => ⟨rfl, rfl⟩⟩

theorem surface_error_recovery_witness :
    (handleRenderError ⟨800, 600, true, 800, 600, 1, 4 / 3⟩ 640 480
        SurfaceError.lost).state.config_width = 640 ∧
    (handleRenderError ⟨800, 600, true, 800, 600, 1, 4 / 3⟩ 640 480
        SurfaceError.lost).exited = false :=
  ⟨(((surface_error_recovery ⟨800, 600, true, 800, 600, 1, 4 / 3⟩ 640 480
        SurfaceError.lost).2.1 (Or.inl rfl)).2 (by norm_num) (by norm_num)).1,
   (surface_error_recovery ⟨800, 600, true, 800, 600, 1, 4 / 3⟩ 640 480
        SurfaceError.lost).1⟩

/-- C3: the frame command stream binds the pipelines in the fixed order
opaque planet bodies, sun, ring, skybox and finally the tonemap pipeline;
it contains exactly two render passes, the first targeting the
intermediate HDR texture and the second the presentable surface; and the
tonemap resolve operations of HdrPipeline process are the trailing suffix
of the stream, so they are the last GPU work of the frame. -/
theorem render_frame_pass_order :
    renderFrameOps.filterMap pipelineOf =
      ["render_pipeline_planets", "render_pipelie_sun", "render_pipeline_ring",
       "render_pipeline_skybox", "render_pipeline_hdr"] ∧
    renderFrameOps.filterMap beginTargetOf =
      [RenderTarget.hdrTexture, RenderTarget.surface] ∧
    hdrProcessOps.IsSuffix renderFrameOps :=
  ⟨rfl, rfl,
   ⟨[GpuOp.beginRenderPass .hdrTexture true] ++ drawPlanetsOps ++ drawSunOps ++
      drawRingOps ++ drawSkyboxOps ++ [GpuOp.endRenderPass], rfl⟩⟩

/-- C9: a body whose computed position is exactly the zero vector never
gets its spin axis by normalizing that zero-length vector: the grid
construction substitutes the fixed Z axis, the spin axis is a unit vector
for every grid body, and every planet has a nonzero initial position, so
its normalized spin axis is well defined as well. -/
theorem zero_position_body_fixed_axis :
    (∀ x z : Fin NUM_INSTANCES_PER_ROW,
      gridPosition x z = Vec3.ZERO →
        gridRotation x z = Quat.fromAxisAngle ⟨0, 0, 1⟩ 0) ∧
    (∀ x z : Fin NUM_INSTANCES_PER_ROW, (gridSpinAxis x z).length = 1) ∧
    (∀ i : Fin PLANETS_COUNT, (planetsNew i).position ≠ Vec3.ZERO ∧
      (planetsNew i).position.normalize.length = 1) := by
  refine ⟨?_, ?_, ?_⟩
  · intro x z hz
    simp [gridRotation, hz]
  · intro x z
    by_cases hz : gridPosition x z = Vec3.ZERO
    · rw [gridSpinAxis, if_pos hz]
      have : Vec3.dot ⟨0, 0, 1⟩ ⟨0, 0, 1⟩ = 1 := by
        simp [Vec3.dot]
      rw [Vec3.length, this, Real.sqrt_one]
    · rw [gridSpinAxis, if_neg hz]
      exact normalize_length_one _ hz
  · intro i
    have hnz : (planetsNew i).position ≠ Vec3.ZERO := by
      intro h
      have hl : (planetsNew i).position.length = PLANETS_RADIUS i := by
        simp only [planetsNew]
        exact length_circle _ _ (planets_radius_nonneg i)
      rw [h] at hl
      have h0 : Vec3.length Vec3.ZERO = 0 := by
        have hz0 : Vec3.dot Vec3.ZERO Vec3.ZERO = 0 := by simp [Vec3.dot, Vec3.ZERO]
        rw [Vec3.length, hz0, Real.sqrt_zero]
      rw [h0] at hl
      exact absurd hl.symm (ne_of_gt (planets_radius_pos i))
    exact ⟨hnz, normalize_length_one _ hnz⟩

theorem zero_position_body_fixed_axis_witness :
    gridRotation ⟨10, by norm_num⟩ ⟨10, by norm_num⟩ =
      Quat.fromAxisAngle ⟨0, 0, 1⟩ 0 :=
  zero_position_body_fixed_axis.1 ⟨10, by norm_num⟩ ⟨10, by norm_num⟩
    (by
      simp only [gridPosition, SPACE_BETWEEN, INSTANCE_DISPLACEMENT,
        NUM_INSTANCES_PER_ROW, Vec3.ZERO, Vec3.sub_def]
      norm_num)

/-- C8: the view matrix derives the camera forward vector from yaw and
pitch as the unit vector with components cosine pitch times cosine yaw,
sine pitch, and cosine pitch times sine yaw, placing its negation in the
third row of the right-handed look-to matrix with world up Y; and a camera
at yaw minus ninety degrees and pitch minus twenty degrees with the
forward key held for one second at speed four moves exactly by four times
that forward vector. -/
theorem view_forward_vector_and_movement :
    (∀ c : Camera,
      c.viewMatrix.m20 = -(Real.cos c.pitch * Real.cos c.yaw) ∧
      c.viewMatrix.m21 = -Real.sin c.pitch ∧
      c.viewMatrix.m22 = -(Real.cos c.pitch * Real.sin c.yaw)) ∧
    (∀ pos : Vec3,
      ((initialController.process_keyboard KeyCode.keyW true).1.update_camera
          ⟨pos, toRadians (-90), toRadians (-20)⟩ 1).2.position =
        pos + (4 : ℝ) •
          (⟨Real.cos (toRadians (-20)) * Real.cos (toRadians (-90)),
            Real.sin (toRadians (-20)),
            Real.cos (toRadians (-20)) * Real.sin (toRadians (-90))⟩ : Vec3)) := by
  constructor
  · intro c
    have h := normalize_eq_self_of_length_one _ (length_forward c.pitch c.yaw)
    refine ⟨?_, ?_, ?_⟩ <;> simp [Camera.viewMatrix, lookToRh, h]
  · intro pos
    have h := normalize_eq_self_of_length_one _
      (length_forward (toRadians (-20)) (toRadians (-90)))
    ext <;>
      simp [CameraController.update_camera, CameraController.process_keyboard,
        initialController, CameraController.new, h, Vec3.add_def, Vec3.smul_def,
        Vec3.Y] <;>
      exact Or.inl (by norm_num)

end Claims

end SolarSystem
